import Mathlib

/-!
Verification development for the real-time audio relay and barge-in state
machine of the voice-agent backend.  The definitions below are a shallow
embedding of the Python source:

  * services/openai_realtime_service.py — session state, the two relay
    pumps, the audio-delta handler, the mark sender and the speech
    interruption handler;
  * main.py — the session registry and the teardown routine.

Network sends are modelled as explicit lists of outbound messages; the
mutable session dictionary becomes a record threaded through each handler.
-/

namespace VoiceRelay

/-- Session state dictionary created by create_session and mutated by both
pumps (services/openai_realtime_service.py, lines 70-82).  The stream_sid
key is absent until the start event arrives, hence an Option. -/
structure SessionData where
  sessionId : String
  isActive : Bool
  latestMediaTimestamp : Int
  lastAssistantItem : Option String
  markQueue : List String
  responseStartTimestamp : Option Int
  streamSid : Option String
  deriving Repr, DecidableEq

/-- Initial connection state of a freshly created session
(create_session, lines 77-81). -/
def initialSessionData (sessionId : String) : SessionData :=
  { sessionId := sessionId
    isActive := true
    latestMediaTimestamp := 0
    lastAssistantItem := none
    markQueue := []
    responseStartTimestamp := none
    streamSid := none }

/-- Messages sent to the OpenAI (model) transport by the relay pumps. -/
inductive OpenAIMsg where
  | inputAudioBufferAppend (audio : String)
  | conversationItemTruncate (itemId : String) (contentIndex : Int) (audioEndMs : Int)
  deriving Repr, DecidableEq

/-- Messages sent to the Twilio (telephony) transport by the relay pumps.
The streamSid field of a media or clear frame is read with dict.get and may
be null; a mark frame is only ever sent with a truthy stream sid. -/
inductive TwilioMsg where
  | media (streamSid : Option String) (payload : List Char)
  | mark (streamSid : String) (name : String)
  | clear (streamSid : Option String)
  deriving Repr, DecidableEq

/-- Python truthiness of an optional string: None and the empty string are
falsy, any other string is truthy. -/
def optTruthy : Option String → Bool
  | none => false
  | some str => str != ""

/-! ### Base64 (Python base64.b64encode / b64decode)

The audio-delta handler re-encodes the payload with
base64.b64encode(base64.b64decode(delta)).  We model the standard base64
alphabet with '=' padding; decoding is modelled on inputs drawn from the
standard alphabet (the handler only ever receives base64 text from the
model transport, and a decode failure is swallowed by its try/except). -/

/-- The standard base64 alphabet used by base64.b64encode. -/
def b64chars : List Char :=
  "ABCDEFGHIJKLMNOPQRSTUVWXYZabcdefghijklmnopqrstuvwxyz0123456789+/".toList

/-- Character for a six-bit group. -/
def sextetChar (n : Nat) : Char := b64chars.getD n 'A'

/-- Index of a character in the base64 alphabet, if present. -/
def sextetVal (c : Char) : Option Nat :=
  let i := b64chars.indexOf c
  if i < 64 then some i else none

/-- base64.b64encode on a byte sequence (bytes as naturals below 256). -/
def b64encode : List Nat → List Char
  | [] => []
  | [a] => [sextetChar (a / 4), sextetChar (a % 4 * 16), '=', '=']
  | [a, b] => [sextetChar (a / 4), sextetChar (a % 4 * 16 + b / 16),
               sextetChar (b % 16 * 4), '=']
  | a :: b :: c :: rest =>
      sextetChar (a / 4) :: sextetChar (a % 4 * 16 + b / 16) ::
      sextetChar (b % 16 * 4 + c / 64) :: sextetChar (c % 64) :: b64encode rest

/-- base64.b64decode on text over the standard alphabet: groups of four
characters, the last group possibly padded; anything else fails. -/
def b64decodeRaw : List Char → Option (List Nat)
  | [] => some []
  | c1 :: c2 :: c3 :: c4 :: rest => do
      let s1 ← sextetVal c1
      let s2 ← sextetVal c2
      if c3 = '=' ∧ c4 = '=' ∧ rest = [] then
        some [s1 * 4 + s2 / 16]
      else do
        let s3 ← sextetVal c3
        if c4 = '=' ∧ rest = [] then
          some [s1 * 4 + s2 / 16, s2 % 16 * 16 + s3 / 4]
        else do
          let s4 ← sextetVal c4
          let tail ← b64decodeRaw rest
          some ((s1 * 4 + s2 / 16) :: (s2 % 16 * 16 + s3 / 4) :: (s3 % 4 * 64 + s4) :: tail)
  | _ => none

/-! ### Model → telephony handlers -/

/-- A response.audio.delta event: the delta field (base64 text) and the
optional item_id field. -/
structure AudioDelta where
  delta : List Char
  itemId : Option String
  deriving Repr, DecidableEq

/-- The _send_mark helper (lines 321-335): when the stream sid is truthy,
send a mark frame and append a token to mark_queue; otherwise do nothing. -/
def sendMark (s : SessionData) : SessionData × List TwilioMsg :=
  match s.streamSid with
  | some sid =>
      if sid != "" then
        ({ s with markQueue := s.markQueue ++ ["responsePart"] },
         [TwilioMsg.mark sid "responsePart"])
      else (s, [])
  | none => (s, [])

/-- The _handle_audio_delta handler (lines 250-282).  A base64 decode
failure raises inside the try block, is logged, and nothing happens.
Otherwise: send the re-encoded payload as a media frame, set
response_start_timestamp if unset, record a truthy item_id, and send a
mark via _send_mark. -/
def handleAudioDelta (ev : AudioDelta) (s : SessionData) :
    SessionData × List TwilioMsg :=
  match b64decodeRaw ev.delta with
  | none => (s, [])
  | some bytes =>
      let payload := b64encode bytes
      let s1 := if s.responseStartTimestamp.isNone then
          { s with responseStartTimestamp := some s.latestMediaTimestamp }
        else s
      let s2 := if optTruthy ev.itemId then
          { s1 with lastAssistantItem := ev.itemId }
        else s1
      let sm := sendMark s2
      (sm.1, TwilioMsg.media s.streamSid payload :: sm.2)

/-- The _handle_speech_interruption handler (lines 284-319).  If the mark
queue is non-empty and response_start_timestamp is set: compute the elapsed
time, send a truncate for a truthy last_assistant_item, send a clear frame,
and reset mark_queue, last_assistant_item and response_start_timestamp.
Otherwise nothing happens. -/
def handleSpeechInterruption (s : SessionData) :
    SessionData × List OpenAIMsg × List TwilioMsg :=
  if s.markQueue ≠ [] ∧ s.responseStartTimestamp.isSome then
    let elapsed := s.latestMediaTimestamp - s.responseStartTimestamp.getD 0
    let truncMsgs : List OpenAIMsg :=
      match s.lastAssistantItem with
      | some item =>
          if item != "" then [OpenAIMsg.conversationItemTruncate item 0 elapsed]
          else []
      | none => []
    ({ s with markQueue := [], lastAssistantItem := none,
              responseStartTimestamp := none },
     truncMsgs, [TwilioMsg.clear s.streamSid])
  else (s, [], [])

/-! ### Telephony → model pump -/

/-- One decoded inbound Twilio event (the event field of the JSON message
with its relevant payload). -/
inductive TwilioEvent where
  | media (timestamp : Int) (payload : String)
  | start (streamSid : String)
  | mark (name : String)
  | other (event : String)
  deriving Repr, DecidableEq

/-- One iteration of the handle_twilio_to_openai loop body
(lines 146-175) on a decoded message. -/
def twilioStep (s : SessionData) : TwilioEvent → SessionData × List OpenAIMsg
  | .media ts payload =>
      ({ s with latestMediaTimestamp := ts },
       [OpenAIMsg.inputAudioBufferAppend payload])
  | .start sid =>
      ({ s with streamSid := some sid, responseStartTimestamp := none,
                latestMediaTimestamp := 0, lastAssistantItem := none }, [])
  | .mark _ =>
      if s.markQueue ≠ [] then ({ s with markQueue := s.markQueue.tail }, [])
      else (s, [])
  | .other _ => (s, [])

/-- An inbound telephony websocket message: either it decodes to an event,
or json.loads (or the subsequent field access) raises on it. -/
inductive RawTwilioMsg where
  | decodable (ev : TwilioEvent)
  | malformed (raw : String)
  deriving Repr, DecidableEq

/-- Outcome of the telephony→model pump.  The loop body has no per-frame
handler for a decode error; the sole try/except wraps the whole loop, logs,
and re-raises, so a malformed message aborts the pump with the remaining
messages unprocessed (lines 143-179). -/
inductive PumpResult where
  | completed (final : SessionData) (sent : List OpenAIMsg)
  | aborted (final : SessionData) (sent : List OpenAIMsg)
      (unprocessed : List RawTwilioMsg)
  deriving Repr, DecidableEq

/-- The handle_twilio_to_openai pump over a finite inbound message
sequence. -/
def twilioPump (s : SessionData) : List RawTwilioMsg → PumpResult
  | [] => .completed s []
  | .malformed raw :: rest => .aborted s [] (.malformed raw :: rest)
  | .decodable ev :: rest =>
      let step := twilioStep s ev
      match twilioPump step.1 rest with
      | .completed s2 sent => .completed s2 (step.2 ++ sent)
      | .aborted s2 sent rem => .aborted s2 (step.2 ++ sent) rem

/-- The pump restricted to well-formed messages (every message decodes). -/
def twilioPumpGood (s : SessionData) : List TwilioEvent → SessionData × List OpenAIMsg
  | [] => (s, [])
  | ev :: rest =>
      let step := twilioStep s ev
      let next := twilioPumpGood step.1 rest
      (next.1, step.2 ++ next.2)

/-! ### Model → telephony pump dispatch -/

/-- One decoded inbound OpenAI event, as dispatched by the type field of
the message in handle_openai_to_twilio (lines 193-244).  An audio delta
without a delta field falls through every branch, hence a separate
variant. -/
inductive OpenAIEvent where
  | audioDelta (ev : AudioDelta)
  | audioDeltaNoPayload (itemId : Option String)
  | textDelta (text : String)
  | speechStarted
  | conversationItemCreated (data : String)
  | functionCallArgumentsDelta (data : String)
  | responseDone (data : String)
  | other (ty : String)
  deriving Repr, DecidableEq

/-- Side-channel events yielded by handle_openai_to_twilio to external
collaborators (RAG integration and transcript logging). -/
inductive SideEvent where
  | conversationItem (data : String) (sessionId : String)
  | ragQuery (data : String) (sessionId : String)
  | responseComplete (data : String) (sessionId : String)
  deriving Repr, DecidableEq

/-- One iteration of the handle_openai_to_twilio loop body
(lines 193-244) on a decoded model event: new session state, messages sent
to the model transport, messages sent to the telephony transport, and
side-channel events yielded. -/
def openaiStep (s : SessionData) :
    OpenAIEvent → SessionData × List OpenAIMsg × List TwilioMsg × List SideEvent
  | .audioDelta ev =>
      let r := handleAudioDelta ev s
      (r.1, [], r.2, [])
  | .audioDeltaNoPayload _ => (s, [], [], [])
  | .textDelta _ => (s, [], [], [])
  | .speechStarted =>
      let r := handleSpeechInterruption s
      (r.1, r.2.1, r.2.2, [])
  | .conversationItemCreated d =>
      (s, [], [], [SideEvent.conversationItem d s.sessionId])
  | .functionCallArgumentsDelta d =>
      (s, [], [], [SideEvent.ragQuery d s.sessionId])
  | .responseDone d =>
      (s, [], [], [SideEvent.responseComplete d s.sessionId])
  | .other _ => (s, [], [], [])

/-! ### Interleaved processing of audio deltas and mark acknowledgments

Between two interruptions the mark queue is touched by exactly two inputs:
an audio delta appends a token (model→telephony pump) and a telephony mark
acknowledgment pops the oldest one (telephony→model pump). -/

/-- An input touching the mark queue: a model audio delta or a telephony
mark acknowledgment. -/
inductive RelayInput where
  | delta (ev : AudioDelta)
  | markAck (name : String)
  deriving Repr, DecidableEq

/-- Predicate selecting audio-delta inputs. -/
def isDeltaInput : RelayInput → Bool
  | .delta _ => true
  | .markAck _ => false

/-- Number of audio-delta inputs in a sequence. -/
def countDelta (events : List RelayInput) : Nat :=
  events.countP isDeltaInput

/-- Number of mark-acknowledgment inputs in a sequence. -/
def countMarkAck (events : List RelayInput) : Nat :=
  events.countP fun e => !(isDeltaInput e)

/-- State effect of one relay input, combining the two pump bodies. -/
def relayStep (s : SessionData) : RelayInput → SessionData
  | .delta ev => (handleAudioDelta ev s).1
  | .markAck n => (twilioStep s (.mark n)).1

/-- Process a sequence of relay inputs in arrival order. -/
def relayRun (s : SessionData) : List RelayInput → SessionData
  | [] => s
  | e :: rest => relayRun (relayStep s e) rest

/-! ### Session teardown (main.py) -/

/-- Reference held in the azure_session attribute of a call session: either
an OpenAI real-time session dictionary or a legacy Azure session handle
(cleanup_call_session, lines 430-436). -/
inductive AzureSessionRef where
  | openaiSession (s : SessionData)
  | legacySession (handle : String)
  deriving Repr, DecidableEq

/-- A call session record as kept in the active_sessions registry
(models.CallSession, the fields used by cleanup_call_session). -/
structure CallSession where
  callSid : String
  userId : Option String
  startTime : Int
  endTime : Option Int
  status : String
  conversationLog : List String
  azureSession : Option AzureSessionRef
  deriving Repr, DecidableEq

/-- The active_sessions registry: session id keyed call sessions. -/
def ServerState := List (String × CallSession)

/-- Conversation summary saved by teardown: generated from a non-empty log
by the external summariser, or the literal fallback string. -/
inductive SummaryVal where
  | generated (log : List String)
  | noConversation
  deriving Repr, DecidableEq

/-- External effects performed by cleanup_call_session, in order. -/
inductive CleanupEffect where
  | generateSummary (log : List String)
  | saveMetrics (userId : Option String) (callId : String) (duration : Int)
      (summary : SummaryVal)
  | closeOpenAISession (sessionId : String)
  | cleanupAzureSession (handle : String)
  | disconnectWebsocket (sessionId : String)
  deriving Repr, DecidableEq

/-- The cleanup_call_session routine (main.py, lines 396-447).  A session
id not in the registry returns immediately with no effect; otherwise the
session is summarised, its metrics saved, its model-side session closed,
the entry deleted from the registry and the websocket disconnected.  The
current time is passed explicitly in place of datetime.now. -/
def cleanupCallSession (st : ServerState) (id : String) (now : Int) :
    ServerState × List CleanupEffect :=
  match List.lookup id st with
  | none => (st, [])
  | some cs =>
      let duration := now - cs.startTime
      let summaryEff : List CleanupEffect :=
        if cs.conversationLog ≠ [] then [.generateSummary cs.conversationLog] else []
      let summary : SummaryVal :=
        if cs.conversationLog ≠ [] then .generated cs.conversationLog
        else .noConversation
      let closeEff : List CleanupEffect :=
        match cs.azureSession with
        | some (.openaiSession sd) => [.closeOpenAISession sd.sessionId]
        | some (.legacySession h) => [.cleanupAzureSession h]
        | none => []
      (st.filter fun p => p.1 != id,
       summaryEff ++ [.saveMetrics cs.userId cs.callSid duration summary] ++
         closeEff ++ [.disconnectWebsocket id])

/-! ## Claims -/

/-- C1: with response_start_timestamp 1000, latest_media_timestamp 1450,
last_assistant_item item_7 and a non-empty mark queue, the interruption
handler sends exactly one truncate instruction for item_7 with
audio_end_ms 450, exactly one clear frame to telephony, and leaves the
session with empty mark queue, unset last_assistant_item and unset
response_start_timestamp. -/
theorem interruption_truncate_clear_reset (s : SessionData)
    (h1 : s.responseStartTimestamp = some 1000)
    (h2 : s.latestMediaTimestamp = 1450)
    (h3 : s.lastAssistantItem = some "item_7")
    (h4 : s.markQueue ≠ []) :
    handleSpeechInterruption s =
      ({ s with markQueue := [], lastAssistantItem := none,
                responseStartTimestamp := none },
       [OpenAIMsg.conversationItemTruncate "item_7" 0 450],
       [TwilioMsg.clear s.streamSid]) := by
  simp [handleSpeechInterruption, h1, h2, h3, h4]

/-- Witness for C1 at a concrete session record. -/
theorem interruption_truncate_clear_reset_witness :
    handleSpeechInterruption
        { sessionId := "sess", isActive := true, latestMediaTimestamp := 1450,
          lastAssistantItem := some "item_7", markQueue := ["responsePart"],
          responseStartTimestamp := some 1000, streamSid := some "MZ1" } =
      ({ sessionId := "sess", isActive := true, latestMediaTimestamp := 1450,
         lastAssistantItem := none, markQueue := [],
         responseStartTimestamp := none, streamSid := some "MZ1" },
       [OpenAIMsg.conversationItemTruncate "item_7" 0 450],
       [TwilioMsg.clear (some "MZ1")]) :=
  interruption_truncate_clear_reset _ rfl rfl rfl (by decide)

/-- C5: with an empty mark queue or an unset response_start_timestamp the
interruption handler is a no-op: no truncate, no clear, state unchanged. -/
theorem interruption_noop_when_idle (s : SessionData)
    (h : s.markQueue = [] ∨ s.responseStartTimestamp = none) :
    handleSpeechInterruption s = (s, [], []) := by
  rcases h with h | h <;> simp [handleSpeechInterruption, h]

/-- Witness for C5 at the initial session state. -/
theorem interruption_noop_when_idle_witness :
    handleSpeechInterruption (initialSessionData "idle") =
      (initialSessionData "idle", [], []) :=
  interruption_noop_when_idle _ (Or.inl rfl)

/-- C3 counterexample: with response_start_timestamp 2000 and
latest_media_timestamp 1800 the truncate instruction carries
audio_end_ms -200, not the claimed 0 — the code has no clamp. -/
theorem negative_elapsed_counterexample :
    (handleSpeechInterruption
        { sessionId := "sess", isActive := true, latestMediaTimestamp := 1800,
          lastAssistantItem := some "item_7", markQueue := ["responsePart"],
          responseStartTimestamp := some 2000, streamSid := some "MZ1" }).2.1 =
      [OpenAIMsg.conversationItemTruncate "item_7" 0 (-200)] ∧
    ¬ ((-200 : Int) = 0) := by
  exact ⟨rfl, by decide⟩

/-- C3 amended: when latest_media_timestamp is below
response_start_timestamp the truncate instruction carries the raw
difference, a negative audio_end_ms — no clamping to zero occurs. -/
theorem truncate_audio_end_ms_unclamped (s : SessionData) (rst : Int) (item : String)
    (h1 : s.markQueue ≠ []) (h2 : s.responseStartTimestamp = some rst)
    (h3 : s.lastAssistantItem = some item) (h4 : item ≠ "")
    (h5 : s.latestMediaTimestamp < rst) :
    (handleSpeechInterruption s).2.1 =
      [OpenAIMsg.conversationItemTruncate item 0 (s.latestMediaTimestamp - rst)] ∧
    s.latestMediaTimestamp - rst < 0 := by
  refine ⟨?_, by omega⟩
  simp [handleSpeechInterruption, h1, h2, h3, h4]

/-- Witness for the amended C3 at a concrete skewed session record. -/
theorem truncate_audio_end_ms_unclamped_witness :
    (handleSpeechInterruption
        { sessionId := "sess", isActive := true, latestMediaTimestamp := 1800,
          lastAssistantItem := some "item_7", markQueue := ["responsePart"],
          responseStartTimestamp := some 2000, streamSid := some "MZ1" }).2.1 =
      [OpenAIMsg.conversationItemTruncate "item_7" 0 (1800 - 2000)] ∧
    (1800 : Int) - 2000 < 0 :=
  truncate_audio_end_ms_unclamped _ 2000 "item_7" (by decide) rfl rfl
    (by decide) (by decide)

/-- C2 counterexample: after frames with timestamps 1000 then 500 the
stored latest_media_timestamp is 500, not the maximum 1000 — the code
assigns the frame timestamp unconditionally. -/
theorem latest_media_timestamp_not_max_counterexample :
    (twilioPumpGood (initialSessionData "sess")
        [TwilioEvent.media 1000 "p1", TwilioEvent.media 500 "p2"]).1.latestMediaTimestamp
      = 500 ∧ ¬ ((500 : Int) = max 1000 500) := by
  exact ⟨rfl, by decide⟩

/-- C2 amended: after a non-empty sequence of media frames the stored
latest_media_timestamp equals the timestamp of the most recent frame; a
later frame with a smaller timestamp rolls the value backward. -/
theorem latest_media_timestamp_eq_last_frame (s : SessionData)
    (f : Int × String) (rest : List (Int × String)) :
    (twilioPumpGood s
        ((f :: rest).map fun p => TwilioEvent.media p.1 p.2)).1.latestMediaTimestamp
      = (rest.getLastD f).1 := by
  induction rest generalizing s f with
  | nil => rfl
  | cons g rest ih =>
      rw [List.getLastD_cons]
      simpa [twilioPumpGood, twilioStep] using
        ih { s with latestMediaTimestamp := f.1 } g

/-- C4 counterexample: a malformed message after a first media frame
aborts the pump; the media frame behind it is never processed and no
append for it is ever sent. -/
theorem malformed_frame_aborts_pump_counterexample :
    twilioPump (initialSessionData "sess")
        [RawTwilioMsg.decodable (TwilioEvent.media 1000 "p1"),
         RawTwilioMsg.malformed "not json",
         RawTwilioMsg.decodable (TwilioEvent.media 2000 "p2")] =
      PumpResult.aborted
        { initialSessionData "sess" with latestMediaTimestamp := 1000 }
        [OpenAIMsg.inputAudioBufferAppend "p1"]
        [RawTwilioMsg.malformed "not json",
         RawTwilioMsg.decodable (TwilioEvent.media 2000 "p2")] := rfl

/-- C4 amended: the first malformed message terminates the pump — the
exception from the decode is logged and re-raised by the handler around
the loop; messages before it are processed, messages from it on are not. -/
theorem twilio_pump_aborts_at_malformed (s : SessionData)
    (pre : List TwilioEvent) (raw : String) (post : List RawTwilioMsg) :
    twilioPump s (pre.map RawTwilioMsg.decodable ++
        RawTwilioMsg.malformed raw :: post) =
      PumpResult.aborted (twilioPumpGood s pre).1 (twilioPumpGood s pre).2
        (RawTwilioMsg.malformed raw :: post) := by
  induction pre generalizing s with
  | nil => rfl
  | cons ev rest ih =>
      simp [twilioPump, twilioPumpGood, ih]

/-- C8: each of the three side-channel model events —
conversation.item.created, response.function_call_arguments.delta and
response.done — yields exactly one side-channel event and changes nothing
in the relay session state, sending nothing on either transport. -/
theorem side_channel_events_pure (s : SessionData) (d : String) :
    openaiStep s (OpenAIEvent.conversationItemCreated d) =
      (s, [], [], [SideEvent.conversationItem d s.sessionId]) ∧
    openaiStep s (OpenAIEvent.functionCallArgumentsDelta d) =
      (s, [], [], [SideEvent.ragQuery d s.sessionId]) ∧
    openaiStep s (OpenAIEvent.responseDone d) =
      (s, [], [], [SideEvent.responseComplete d s.sessionId]) :=
  ⟨rfl, rfl, rfl⟩

/-- C7: an audio delta on a started stream with a truthy item_id forwards
the re-encoded payload as one media frame, appends one responsePart token
to the mark queue and sends the matching mark frame, sets
response_start_timestamp to latest_media_timestamp when it was unset
(keeping it otherwise), and records the item_id as last_assistant_item. -/
theorem audio_delta_effects (ev : AudioDelta) (s : SessionData)
    (bytes : List Nat) (sid iid : String)
    (hdec : b64decodeRaw ev.delta = some bytes)
    (hsid : s.streamSid = some sid) (hsid2 : sid ≠ "")
    (hiid : ev.itemId = some iid) (hiid2 : iid ≠ "") :
    handleAudioDelta ev s =
      ({ s with markQueue := s.markQueue ++ ["responsePart"],
                lastAssistantItem := some iid,
                responseStartTimestamp :=
                  some (s.responseStartTimestamp.getD s.latestMediaTimestamp) },
       [TwilioMsg.media (some sid) (b64encode bytes),
        TwilioMsg.mark sid "responsePart"]) := by
  cases hrst : s.responseStartTimestamp <;>
    simp [handleAudioDelta, sendMark, optTruthy, hdec, hsid, hsid2, hiid, hiid2, hrst]

/-- Witness for C7: a concrete delta AQID (bytes 1, 2, 3) on a concrete
started session with item id item_9. -/
theorem audio_delta_effects_witness :
    handleAudioDelta
        { delta := ['A', 'Q', 'I', 'D'], itemId := some "item_9" }
        { sessionId := "sess", isActive := true, latestMediaTimestamp := 700,
          lastAssistantItem := none, markQueue := [],
          responseStartTimestamp := none, streamSid := some "MZ1" } =
      ({ sessionId := "sess", isActive := true, latestMediaTimestamp := 700,
         lastAssistantItem := some "item_9", markQueue := ["responsePart"],
         responseStartTimestamp := some 700, streamSid := some "MZ1" },
       [TwilioMsg.media (some "MZ1") (b64encode [1, 2, 3]),
        TwilioMsg.mark "MZ1" "responsePart"]) :=
  audio_delta_effects _ _ [1, 2, 3] "MZ1" "item_9" (by decide) rfl (by decide)
    rfl (by decide)

/-- A decodable audio delta on a started stream appends exactly one token
to the mark queue and leaves the stream sid unchanged. -/
theorem handleAudioDelta_markQueue_streamSid (ev : AudioDelta) (s : SessionData)
    (sid : String) (hdec : (b64decodeRaw ev.delta).isSome)
    (hsid : s.streamSid = some sid) (hsid2 : sid ≠ "") :
    ((handleAudioDelta ev s).1).markQueue = s.markQueue ++ ["responsePart"] ∧
    ((handleAudioDelta ev s).1).streamSid = s.streamSid := by
  obtain ⟨bytes, hb⟩ := Option.isSome_iff_exists.mp hdec
  simp only [handleAudioDelta, hb, sendMark]
  split_ifs <;> simp_all [sendMark, hsid]

/-- A telephony mark acknowledgment pops the head of the mark queue (a
no-op on an empty queue) and leaves the stream sid unchanged. -/
theorem twilioStep_mark_state (s : SessionData) (n : String) :
    ((twilioStep s (TwilioEvent.mark n)).1).markQueue = s.markQueue.tail ∧
    ((twilioStep s (TwilioEvent.mark n)).1).streamSid = s.streamSid := by
  cases h : s.markQueue <;> simp [twilioStep, h]

/-- Mark-queue length bookkeeping over any interleaving of audio deltas
and mark acknowledgments, for a started stream: whenever no run of
acknowledgments outnumbers the deltas plus the initial queue, the final
length is the initial length plus deltas seen minus acknowledgments
seen. -/
theorem relayRun_markQueue_length (sid : String) (hsid : sid ≠ "")
    (events : List RelayInput) :
    ∀ s : SessionData, s.streamSid = some sid →
      (∀ ev, RelayInput.delta ev ∈ events → (b64decodeRaw ev.delta).isSome) →
      (∀ n, countMarkAck (events.take n) ≤
          s.markQueue.length + countDelta (events.take n)) →
      (relayRun s events).markQueue.length =
        s.markQueue.length + countDelta events - countMarkAck events := by
  induction events with
  | nil =>
      intro s _ _ _
      simp [relayRun, countDelta, countMarkAck]
  | cons e rest ih =>
      intro s hs hdec hdom
      cases e with
      | delta ev =>
          have hd : (b64decodeRaw ev.delta).isSome := hdec ev (by simp)
          obtain ⟨hq, hss⟩ := handleAudioDelta_markQueue_streamSid ev s sid hd hs hsid
          have hlen : ((handleAudioDelta ev s).1).markQueue.length =
              s.markQueue.length + 1 := by
            rw [hq]; simp
          have hdom2 : ∀ n, countMarkAck (rest.take n) ≤
              ((handleAudioDelta ev s).1).markQueue.length +
                countDelta (rest.take n) := by
            intro n
            have hn := hdom (n + 1)
            rw [hlen]
            simp [countMarkAck, countDelta, isDeltaInput] at hn ⊢
            omega
          have key := ih (handleAudioDelta ev s).1 (by rw [hss]; exact hs)
            (fun e2 h2 => hdec e2 (List.mem_cons_of_mem _ h2)) hdom2
          simp only [relayRun, relayStep]
          rw [key, hlen]
          simp [countMarkAck, countDelta, isDeltaInput]
          omega
      | markAck n =>
          have h1 := hdom 1
          simp [countMarkAck, countDelta, isDeltaInput] at h1
          obtain ⟨hq, hss⟩ := twilioStep_mark_state s n
          have hlen : ((twilioStep s (TwilioEvent.mark n)).1).markQueue.length =
              s.markQueue.length - 1 := by
            rw [hq, List.length_tail]
          have hdom2 : ∀ m, countMarkAck (rest.take m) ≤
              ((twilioStep s (TwilioEvent.mark n)).1).markQueue.length +
                countDelta (rest.take m) := by
            intro m
            have hn := hdom (m + 1)
            rw [hlen]
            simp [countMarkAck, countDelta, isDeltaInput] at hn ⊢
            omega
          have key := ih (twilioStep s (TwilioEvent.mark n)).1 (by rw [hss]; exact hs)
            (fun e2 h2 => hdec e2 (List.mem_cons_of_mem _ h2)) hdom2
          simp only [relayRun, relayStep]
          rw [key, hlen]
          simp [countMarkAck, countDelta, isDeltaInput]
          omega

/-- C6: for any interleaving of audio deltas and mark acknowledgments
following an interruption (empty queue, started stream) in which no run of
acknowledgments outnumbers the deltas, the mark-queue length equals deltas
processed minus acknowledgments processed; an acknowledgment on an empty
queue is ignored rather than an error, and otherwise an acknowledgment
removes exactly the oldest token. -/
theorem mark_queue_length_invariant :
    (∀ (sid : String) (events : List RelayInput) (s : SessionData),
      sid ≠ "" → s.streamSid = some sid → s.markQueue = [] →
      (∀ ev, RelayInput.delta ev ∈ events → (b64decodeRaw ev.delta).isSome) →
      (∀ n, countMarkAck (events.take n) ≤ countDelta (events.take n)) →
      (relayRun s events).markQueue.length =
        countDelta events - countMarkAck events) ∧
    (∀ (s : SessionData) (n : String), s.markQueue = [] →
      twilioStep s (TwilioEvent.mark n) = (s, [])) ∧
    (∀ (s : SessionData) (n t : String) (q : List String),
      s.markQueue = t :: q →
      twilioStep s (TwilioEvent.mark n) = ({ s with markQueue := q }, [])) := by
  refine ⟨?_, ?_, ?_⟩
  · intro sid events s hsid hs hq hdec hdom
    have h := relayRun_markQueue_length sid hsid events s hs hdec
      (fun n => by simpa [hq] using hdom n)
    simpa [hq] using h
  · intro s n h
    simp [twilioStep, h]
  · intro s n t q h
    simp [twilioStep, h]

/-- Witness for C6: one decodable delta followed by one acknowledgment on
a concrete started session with empty queue, plus concrete instances of
the two acknowledgment behaviors. -/
theorem mark_queue_length_invariant_witness :
    (relayRun
        { sessionId := "sess", isActive := true, latestMediaTimestamp := 0,
          lastAssistantItem := none, markQueue := [],
          responseStartTimestamp := none, streamSid := some "MZ1" }
        [RelayInput.delta { delta := ['A', 'Q', 'I', 'D'], itemId := some "item_9" },
         RelayInput.markAck "responsePart"]).markQueue.length =
      countDelta
          [RelayInput.delta { delta := ['A', 'Q', 'I', 'D'], itemId := some "item_9" },
           RelayInput.markAck "responsePart"] -
        countMarkAck
          [RelayInput.delta { delta := ['A', 'Q', 'I', 'D'], itemId := some "item_9" },
           RelayInput.markAck "responsePart"] :=
  mark_queue_length_invariant.1 "MZ1"
    [RelayInput.delta { delta := ['A', 'Q', 'I', 'D'], itemId := some "item_9" },
     RelayInput.markAck "responsePart"]
    { sessionId := "sess", isActive := true, latestMediaTimestamp := 0,
      lastAssistantItem := none, markQueue := [],
      responseStartTimestamp := none, streamSid := some "MZ1" }
    (by decide) rfl rfl
    (by
      intro ev h
      simp only [List.mem_cons, List.mem_singleton] at h
      rcases h with h | h
      · rw [RelayInput.delta.injEq] at h
        subst h
        decide
      · simp at h)
    (by
      intro n
      match n with
      | 0 => decide
      | 1 => decide
      | m + 2 =>
          rw [List.take_of_length_le
            (by simp only [List.length_cons, List.length_nil]; omega)]
          decide)

/-- Deleting a key from the registry removes it: a later lookup of the
same id finds nothing. -/
theorem lookup_filter_self (id : String) (st : List (String × CallSession)) :
    List.lookup id (st.filter fun p => p.1 != id) = none := by
  induction st with
  | nil => rfl
  | cons p rest ih =>
      by_cases h : p.1 = id
      · simp [List.filter_cons, h, ih]
      · have h2 : (id == p.1) = false :=
          beq_eq_false_iff_ne.mpr fun he => h he.symm
        simp [List.filter_cons, List.lookup, h, h2, ih]

/-- C9: teardown is idempotent — cleaning up an id that is not among the
active sessions performs no effect and leaves the registry unchanged, and
a second cleanup of the same id right after a first one is such a no-op. -/
theorem cleanup_idempotent :
    (∀ (st : ServerState) (id : String) (now : Int),
      List.lookup id st = none → cleanupCallSession st id now = (st, [])) ∧
    (∀ (st : ServerState) (id : String) (now now2 : Int),
      cleanupCallSession (cleanupCallSession st id now).1 id now2 =
        ((cleanupCallSession st id now).1, [])) := by
  constructor
  · intro st id now h
    simp [cleanupCallSession, h]
  · intro st id now now2
    cases h : List.lookup id st with
    | none => simp [cleanupCallSession, h]
    | some cs =>
        have h2 : (cleanupCallSession st id now).1 =
            st.filter fun p => p.1 != id := by
          simp [cleanupCallSession, h]
        rw [h2]
        simp [cleanupCallSession, lookup_filter_self]

/-- Witness for C9: cleaning up an id absent from an empty registry does
nothing. -/
theorem cleanup_idempotent_witness :
    List.lookup "gone" ([] : ServerState) = none ∧
    cleanupCallSession ([] : ServerState) "gone" 5 = (([] : ServerState), []) :=
  ⟨rfl, cleanup_idempotent.1 [] "gone" 5 rfl⟩

/-! ### Base64 round trip -/

/-- Decoding a base64 alphabet character recovers its six-bit value. -/
theorem sextetVal_sextetChar : ∀ n, n < 64 → sextetVal (sextetChar n) = some n := by
  decide

/-- No base64 alphabet character is the padding character. -/
theorem sextetChar_ne_pad : ∀ n, n < 64 → sextetChar n ≠ '=' := by
  decide

/-- Decoding inverts encoding on byte sequences. -/
theorem b64decodeRaw_b64encode (bs : List Nat) :
    (∀ x ∈ bs, x < 256) → b64decodeRaw (b64encode bs) = some bs := by
  induction bs using b64encode.induct with
  | case1 => intro _; rfl
  | case2 a =>
      intro hb
      have ha : a < 256 := hb a (by simp)
      have h1 := sextetVal_sextetChar (a / 4) (by omega)
      have h2 := sextetVal_sextetChar (a % 4 * 16) (by omega)
      simp [b64encode, b64decodeRaw, h1, h2]
      omega
  | case3 a b =>
      intro hb
      have ha : a < 256 := hb a (by simp)
      have hbb : b < 256 := hb b (by simp)
      have h1 := sextetVal_sextetChar (a / 4) (by omega)
      have h2 := sextetVal_sextetChar (a % 4 * 16 + b / 16) (by omega)
      have h3 := sextetVal_sextetChar (b % 16 * 4) (by omega)
      have hne := sextetChar_ne_pad (b % 16 * 4) (by omega)
      simp [b64encode, b64decodeRaw, h1, h2, h3, hne]
      constructor <;> omega
  | case4 a b c rest ih =>
      intro hb
      have ha : a < 256 := hb a (by simp)
      have hbb : b < 256 := hb b (by simp)
      have hc : c < 256 := hb c (by simp)
      have h1 := sextetVal_sextetChar (a / 4) (by omega)
      have h2 := sextetVal_sextetChar (a % 4 * 16 + b / 16) (by omega)
      have h3 := sextetVal_sextetChar (b % 16 * 4 + c / 64) (by omega)
      have h4 := sextetVal_sextetChar (c % 64) (by omega)
      have hne3 := sextetChar_ne_pad (b % 16 * 4 + c / 64) (by omega)
      have hne4 := sextetChar_ne_pad (c % 64) (by omega)
      have hrest := ih (fun x hx => hb x (by simp [hx]))
      simp [b64encode, b64decodeRaw, h1, h2, h3, h4, hne3, hne4, hrest]
      refine ⟨by omega, by omega, by omega⟩

/-- C10: an audio delta whose payload is canonical base64 text (the
encoding of some byte sequence) passes through the relay unmodified: the
decode–re-encode in the audio-delta handler is the identity on it, and the
outbound media frame carries exactly the original delta text. -/
theorem audio_payload_passthrough (ev : AudioDelta) (s : SessionData)
    (bytes : List Nat) (hcanon : ev.delta = b64encode bytes)
    (hbytes : ∀ x ∈ bytes, x < 256) :
    b64decodeRaw ev.delta = some bytes ∧
    ((handleAudioDelta ev s).2).head? =
      some (TwilioMsg.media s.streamSid ev.delta) := by
  have hdec2 : b64decodeRaw (b64encode bytes) = some bytes :=
    b64decodeRaw_b64encode bytes hbytes
  refine ⟨by rw [hcanon]; exact hdec2, ?_⟩
  simp [handleAudioDelta, hcanon, hdec2]

/-- Witness for C10 at bytes 104, 105 (text hi). -/
theorem audio_payload_passthrough_witness :
    b64decodeRaw (AudioDelta.mk (b64encode [104, 105]) (some "item_1")).delta =
      some [104, 105] ∧
    ((handleAudioDelta (AudioDelta.mk (b64encode [104, 105]) (some "item_1"))
        (initialSessionData "sess")).2).head? =
      some (TwilioMsg.media (initialSessionData "sess").streamSid
        (AudioDelta.mk (b64encode [104, 105]) (some "item_1")).delta) :=
  audio_payload_passthrough _ _ [104, 105] rfl (by decide)

end VoiceRelay
